import Mathlib

/-!
Shallow embedding of `src/app.py` (KomalMemorial backend): a Flask service over a
MongoDB document store with volunteer registration, listing, deletion, CSV export,
news management, JWT-based admin auth and best-effort audit logging.

Modelling conventions:
* Instants are `Nat` seconds since the Unix epoch in UTC (`datetime.datetime.utcnow()`),
  which is also exactly the numeric form PyJWT stores in the `exp` claim.
* The document store is a `DbState` record of in-memory collections; the unique
  indexes created at startup on `volunteers.email` and `volunteers.phone`
  (app.py lines 48-55) are modelled inside `volunteersInsertOne`, which raises
  `DuplicateKeyError` exactly when an existing record shares the email or phone.
* A JWT credential is modelled at the claim level: a `Token` carries the `user`
  claim, the numeric `exp` claim, and the secret it was signed with; `jwt_decode`
  accepts it iff the verifying secret matches (signature check) and then checks
  expiry, mirroring PyJWT's order (signature before claims).  A syntactically
  undecodable bearer string is `Credential.malformed`.
* The audit write (`log_audit`) can fail inside the store; the boolean `auditOk`
  parameter says whether that insert succeeds.  The Python function swallows the
  exception, so the model is total and returns the state unchanged on failure.
* Mongo `{"$regex": s, "$options": "i"}` is modelled by `mongoRegexCI` on the
  pattern fragment of literal characters plus the `.` wildcard over
  newline-free field text; a search string outside that fragment reaches the
  listing route only through its exception path (an invalid pattern makes the
  store raise), modelled by the `storeRaises` parameter of `get_volunteers`
  mirroring the route's try/except.
-/

namespace KomalMemorial

/-- Server configuration, loaded once at startup from the environment
(SECRET_KEY, ADMIN_USERNAME, ADMIN_PASSWORD). -/
structure Config where
  secretKey : String
  adminUsername : String
  adminPassword : String
deriving DecidableEq, Repr

/-- A decoded JWT as issued by `admin_login`: the `user` claim, the numeric
`exp` claim (epoch seconds), and the secret that produced its signature. -/
structure Token where
  user : String
  exp : Nat
  signedWith : String
deriving DecidableEq, Repr

/-- A bearer credential as presented to `jwt.decode`: either a decodable JWT or
a malformed string (wrong format, not a JWT at all). -/
inductive Credential where
  | malformed
  | jwtToken (t : Token)
deriving DecidableEq, Repr

/-- The request's Authorization header as seen by `token_required`:
absent, present without the `Bearer ` scheme (including a bare `Bearer` whose
split yields an empty token, which the code treats as missing), or a bearer
credential. -/
inductive AuthHeader where
  | absent
  | notBearer
  | bearer (c : Credential)
deriving DecidableEq, Repr

/-- A volunteer document as inserted by `register_volunteer`: every record
created through the app carries all five fields (message defaults to `""`),
plus the store-assigned `_id`, modelled as the canonical lowercase-hex string. -/
structure Volunteer where
  oid : String
  name : String
  email : String
  phone : String
  message : String
  registered_at : Nat
deriving DecidableEq, Repr

/-- A news document as inserted by `add_news`; the `image` key is present only
when the request carried a truthy image string. -/
structure NewsItem where
  oid : String
  title : String
  content : String
  image : Option String
  date : Nat
deriving DecidableEq, Repr

/-- An audit_logs document as written by `log_audit`. -/
structure AuditEntry where
  action : String
  details : String
  admin : String
  timestamp : Nat
deriving DecidableEq, Repr

/-- The document store: the three collections used by the app. -/
structure DbState where
  volunteers : List Volunteer
  news : List NewsItem
  audit_logs : List AuditEntry
deriving DecidableEq, Repr

/-- View of a volunteer as rendered by the GET /api/volunteers handler. -/
structure VolunteerView where
  id : String
  name : String
  email : String
  phone : String
  message : String
  date : String
deriving DecidableEq, Repr

/-- The JSON/CSV bodies a route can answer with, together with their HTTP
status.  `authError` is the 401 body produced by `token_required`
(a bare message object); `loginOk` is the 200 login body carrying the token;
`listOk` is the 200 listing body; `csv` is the CSV attachment (modelled at the
`csv.writer.writerow` interface: the list of rows written, serialization being
the csv module's concern). -/
inductive RouteResponse where
  | authError (message : String)
  | json (status : Nat) (success : Bool) (message : String)
  | loginOk (token : Token)
  | listOk (volunteers : List VolunteerView) (currentPage : Nat) (lim : Nat) (totalRecords : Nat)
  | csv (rows : List (List String))
deriving DecidableEq, Repr

/-- HTTP status of a response. -/
def RouteResponse.status : RouteResponse → Nat
  | .authError _ => 401
  | .json s _ _ => s
  | .loginOk _ => 200
  | .listOk _ _ _ _ => 200
  | .csv _ => 200

/-- Ids listed by a response: the `id` fields of a 200 listing body, empty for
every other shape. -/
def RouteResponse.listedIds : RouteResponse → List String
  | .listOk vs _ _ _ => vs.map VolunteerView.id
  | _ => []

/-! ### Timestamp rendering (`datetime.strftime("%Y-%m-%d %H:%M:%S")`) -/

/-- Civil date (year, month, day) of a day count since 1970-01-01 (proleptic
Gregorian, days-from-civil inverse in the style of the standard algorithm). -/
def civilFromDays (z0 : Nat) : Nat × Nat × Nat :=
  let z := z0 + 719468
  let era := z / 146097
  let doe := z % 146097
  let yoe := (doe - doe / 1460 + doe / 36524 - doe / 146096) / 365
  let doy := doe - (365 * yoe + yoe / 4 - yoe / 100)
  let mp := (5 * doy + 2) / 153
  let d := doy - (153 * mp + 2) / 5 + 1
  let m := if mp < 10 then mp + 3 else mp - 9
  let y := era * 400 + yoe + (if m ≤ 2 then 1 else 0)
  (y, m, d)

/-- Zero-pad to two digits. -/
def pad2 (n : Nat) : String := if n < 10 then "0" ++ toString n else toString n

/-- Zero-pad to four digits. -/
def pad4 (n : Nat) : String :=
  if n < 10 then "000" ++ toString n
  else if n < 100 then "00" ++ toString n
  else if n < 1000 then "0" ++ toString n
  else toString n

/-- `t.strftime("%Y-%m-%d %H:%M:%S")` on an epoch-seconds UTC instant. -/
def strftimeYmdHms (t : Nat) : String :=
  let ymd := civilFromDays (t / 86400)
  pad4 ymd.1 ++ "-" ++ pad2 ymd.2.1 ++ "-" ++ pad2 ymd.2.2 ++ " " ++
    pad2 (t % 86400 / 3600) ++ ":" ++ pad2 (t % 3600 / 60) ++ ":" ++ pad2 (t % 60)

/-! ### ObjectId parsing (`bson.ObjectId(id)`) -/

/-- Hex digit as accepted by `bson.ObjectId` for a 24-character string. -/
def isHexDigit (c : Char) : Bool :=
  c.isDigit || ('a' ≤ c && c ≤ 'f') || ('A' ≤ c && c ≤ 'F')

/-- A string is a well-formed ObjectId iff it is exactly 24 hex characters
(`bson.ObjectId` raises `InvalidId` otherwise for `str` input). -/
def objectIdValid (s : String) : Bool :=
  s.data.length = 24 && s.data.all isHexDigit

/-- `ObjectId(s)`: the canonical (lowercase) id on success, `none` when the
constructor raises `InvalidId`. -/
def parseObjectId (s : String) : Option String :=
  if objectIdValid s then some ⟨s.data.map Char.toLower⟩ else none

/-- The message of the `InvalidId` error raised by `ObjectId(s)` (quoting of the
offending value elided). -/
def invalidIdMessage (s : String) : String :=
  s ++ " is not a valid ObjectId, it must be a 12-byte input or a 24-character hex string"

/-! ### JWT encode/decode -/

/-- Outcome of `jwt.decode(token, secret, algorithms=["HS256"])`:
`ExpiredSignatureError`, a general `InvalidTokenError`, or the decoded payload's
user claim.  PyJWT verifies the signature before validating claims, so a bad
signature on an expired token reports `invalidToken`. -/
inductive JwtOutcome where
  | ok (user : String)
  | expiredSignature
  | invalidToken
deriving DecidableEq, Repr

/-- `jwt.decode` on a bearer credential at instant `now`. -/
def jwt_decode (secret : String) (c : Credential) (now : Nat) : JwtOutcome :=
  match c with
  | .malformed => .invalidToken
  | .jwtToken t =>
    if t.signedWith ≠ secret then .invalidToken
    else if t.exp ≤ now then .expiredSignature
    else .ok t.user

/-- `jwt.encode` of the login payload: user claim, exp claim, signing secret. -/
def jwt_encode (secret user : String) (exp : Nat) : Token :=
  { user := user, exp := exp, signedWith := secret }

/-! ### Audit logging -/

/-- `log_audit(action, details)`: best-effort insert into `audit_logs`.
`auditOk` models whether the store insert succeeds; on failure the exception is
caught and logged locally, so the state is returned unchanged and no error
escapes. -/
def log_audit (cfg : Config) (auditOk : Bool) (now : Nat) (db : DbState)
    (action details : String) : DbState :=
  if auditOk then
    { db with audit_logs :=
        db.audit_logs ++ [{ action := action, details := details,
                            admin := cfg.adminUsername, timestamp := now }] }
  else db

/-! ### Volunteer registration (POST /api/register-volunteer) -/

/-- The parsed JSON body of a registration request: which keys are present and
their values (`all(k in data for k in (...))` tests key presence). -/
structure RegisterData where
  name : Option String
  email : Option String
  phone : Option String
  message : Option String
deriving DecidableEq, Repr

/-- `insert_one` into `volunteers` under the startup-created unique indexes on
`email` and `phone`: rejected with `DuplicateKeyError` iff an existing record
holds the same email or the same phone. -/
def volunteersInsertOne (db : DbState) (v : Volunteer) : Option DbState :=
  if db.volunteers.any (fun w => w.email = v.email || w.phone = v.phone) then none
  else some { db with volunteers := db.volunteers ++ [v] }

/-- Whether the request body exists and carries all of name, email, phone. -/
def hasRequiredFields (data : Option RegisterData) : Bool :=
  match data with
  | none => false
  | some d => d.name.isSome && d.email.isSome && d.phone.isSome

/-- The POST /api/register-volunteer handler.  `newId` is the store-assigned
`_id` of the inserted document, `now` is `datetime.utcnow()`. -/
def register_volunteer (data : Option RegisterData) (now : Nat) (newId : String)
    (db : DbState) : RouteResponse × DbState :=
  match data with
  | none => (.json 400 false "Missing fields", db)
  | some d =>
    match d.name, d.email, d.phone with
    | some n, some e, some p =>
      match volunteersInsertOne db
          { oid := newId, name := n, email := e, phone := p,
            message := d.message.getD "", registered_at := now } with
      | some db2 => (.json 201 true "Registered!", db2)
      | none => (.json 409 false "Email/Phone already exists", db)
    | _, _, _ => (.json 400 false "Missing fields", db)

/-! ### Admin login (POST /api/admin/login) -/

/-- The parsed JSON body of a login request. -/
structure LoginData where
  username : Option String
  password : Option String
deriving DecidableEq, Repr

/-- Python truthiness of `data.get(key)`: false when the key is absent or the
value is the empty string. -/
def truthy (v : Option String) : Bool :=
  match v with
  | none => false
  | some s => !(s = "")

/-- The POST /api/admin/login handler. -/
def admin_login (cfg : Config) (data : Option LoginData) (now : Nat)
    (auditOk : Bool) (db : DbState) : RouteResponse × DbState :=
  match data with
  | none => (.json 400 false "Missing credentials", db)
  | some d =>
    if !truthy d.username || !truthy d.password then
      (.json 400 false "Missing credentials", db)
    else if d.username = some cfg.adminUsername && d.password = some cfg.adminPassword then
      let token := jwt_encode cfg.secretKey cfg.adminUsername (now + 2 * 3600)
      (.loginOk token, log_audit cfg auditOk now db "LOGIN" "Admin logged in successfully")
    else
      (.json 401 false "Invalid credentials", db)

/-! ### Auth gate (`token_required` decorator) -/

/-- Token extraction from the Authorization header: `None` unless the header is
present, starts with `Bearer `, and the part after the blank is nonempty. -/
def extractToken (hdr : AuthHeader) : Option Credential :=
  match hdr with
  | .absent => none
  | .notBearer => none
  | .bearer c => some c

/-- The `token_required` decorator wrapping a handler `f`: short-circuits with a
401 body before `f` runs when no token is presented or `jwt.decode` raises. -/
def token_required (cfg : Config) (hdr : AuthHeader) (now : Nat)
    (f : DbState → RouteResponse × DbState) (db : DbState) : RouteResponse × DbState :=
  match extractToken hdr with
  | none => (.authError "Token is missing!", db)
  | some c =>
    match jwt_decode cfg.secretKey c now with
    | .expiredSignature => (.authError "Token has expired!", db)
    | .invalidToken => (.authError "Invalid token!", db)
    | .ok _ => f db

/-- Whether verification rejects the request (no token, expired, or invalid):
the condition under which `token_required` short-circuits. -/
def verifyRejects (secret : String) (hdr : AuthHeader) (now : Nat) : Bool :=
  match extractToken hdr with
  | none => true
  | some c =>
    match jwt_decode secret c now with
    | .ok _ => false
    | _ => true

/-! ### Volunteer listing (GET /api/volunteers) -/

/-- Case-insensitive character comparison: the effect of regex option `i`. -/
def charEqCI (a b : Char) : Bool := a.toLower = b.toLower

/-- The characters PCRE treats specially; a search string containing one is
interpreted as a pattern by `$regex`, not as plain text. -/
def regexMeta : List Char :=
  ['.', '^', '$', '*', '+', '?', '(', ')', '[', ']', '\\', '|',
    Char.ofNat 123, Char.ofNat 125]

/-- A search string that PCRE interprets as itself: no regex metacharacters. -/
def regexLiteral (s : String) : Bool :=
  s.data.all (fun c => !(regexMeta.contains c))

/-- Whether `pat` occurs case-insensitively at the head of `hay`
(spec-side plain-text matching). -/
def charsStartWith : List Char → List Char → Bool
  | _, [] => true
  | [], _ :: _ => false
  | h :: hs, p :: ps => charEqCI h p && charsStartWith hs ps

/-- Whether `pat` occurs case-insensitively and contiguously anywhere in
`hay` (spec-side plain-text matching). -/
def charsContain (hay pat : List Char) : Bool :=
  charsStartWith hay pat ||
    match hay with
    | [] => false
    | _ :: hs => charsContain hs pat

/-- Case-insensitive substring test: the spec's reading of the search
("match case-insensitively against name OR email OR phone, substring match"). -/
def ciContains (hay pat : String) : Bool :=
  charsContain hay.data pat.data

/-- Anchored match of a regex pattern at the head of the text, for the
modelled pattern fragment: literal characters and the `.` wildcard
(which matches any single character of newline-free field text). -/
def regexMatchHead : List Char → List Char → Bool
  | [], _ => true
  | _ :: _, [] => false
  | p :: ps, h :: hs => (p = '.' || charEqCI p h) && regexMatchHead ps hs

/-- Unanchored regex match: the pattern matches at some position of the text
(Mongo `$regex` is a search, not a full match). -/
def regexSearch (pat : List Char) : List Char → Bool
  | [] => regexMatchHead pat []
  | c :: hs => regexMatchHead pat (c :: hs) || regexSearch pat hs

/-- Mongo `{"$regex": pat, "$options": "i"}` on one field, modelled for
patterns built from literal characters and the `.` wildcard over
newline-free field text; search strings with other metacharacters (or
invalid patterns, which make the store raise) are outside this model and are
handled through the route's exception path. -/
def mongoRegexCI (hay pat : String) : Bool :=
  regexSearch pat.data hay.data

/-- The `$or` filter built by the handler when a search string is present:
each field is matched by the store as a case-insensitive regex. -/
def matchesSearch (search : String) (v : Volunteer) : Bool :=
  mongoRegexCI v.name search || mongoRegexCI v.email search
    || mongoRegexCI v.phone search

/-- The Mongo query of GET /api/volunteers: empty (match all) when `search` is
falsy, else the case-insensitive `$or` over name, email, phone. -/
def volQuery (search : String) (v : Volunteer) : Bool :=
  if search = "" then true else matchesSearch search v

/-- `find(query)` over a collection. -/
def mongoFind (l : List Volunteer) (q : Volunteer → Bool) : List Volunteer := l.filter q

/-- `.sort("registered_at", -1)`: newest first. -/
def mongoSortDesc (l : List Volunteer) : List Volunteer :=
  l.mergeSort (fun a b => decide (b.registered_at ≤ a.registered_at))

/-- `.skip(n)`. -/
def mongoSkip (n : Nat) (l : List Volunteer) : List Volunteer := l.drop n

/-- `.limit(n)`: Mongo treats `limit(0)` as no limit. -/
def mongoLimit (n : Nat) (l : List Volunteer) : List Volunteer :=
  if n = 0 then l else l.take n

/-- Rendering of one cursor document by the listing handler.  Every document
inserted through this app carries a `message` key (possibly `""`), so the
`v.get('message', 'N/A')` default never fires in reachable states. -/
def volunteerView (v : Volunteer) : VolunteerView :=
  { id := v.oid, name := v.name, email := v.email, phone := v.phone,
    message := v.message, date := strftimeYmdHms v.registered_at }

/-- The GET /api/volunteers handler for in-range query parameters
(`page ≥ 1`, as the route's own default and client contract supply).
`storeRaises` models the route's try/except (app.py lines 167 and 207-209):
any exception inside the try — an invalid regex search pattern such as `[`,
a non-integer or out-of-range parameter, or any other store failure — is
caught and answered 500 `Server Error` with the state untouched. -/
def get_volunteers (storeRaises : Bool) (page lim : Nat) (search : String)
    (db : DbState) : RouteResponse × DbState :=
  if storeRaises then (.json 500 false "Server Error", db)
  else
    let skip := (page - 1) * lim
    let cursor := mongoLimit lim (mongoSkip skip
      (mongoSortDesc (mongoFind db.volunteers (volQuery search))))
    let total := (mongoFind db.volunteers (volQuery search)).length
    (.listOk (cursor.map volunteerView) page lim total, db)

/-! ### CSV export (GET /api/volunteers/export) -/

/-- The fixed header row written first by the export handler. -/
def csvHeader : List String := ["Registered At", "Name", "Email", "Phone", "Message"]

/-- The data row written for one volunteer document. -/
def csvRow (v : Volunteer) : List String :=
  [strftimeYmdHms v.registered_at, v.name, v.email, v.phone, v.message]

/-- The GET /api/volunteers/export handler: audit first, then header row, then
one row per document of the cursor sorted newest-first. -/
def export_volunteers (cfg : Config) (auditOk : Bool) (now : Nat) (db : DbState) :
    RouteResponse × DbState :=
  let db2 := log_audit cfg auditOk now db "EXPORT_CSV" "Exported volunteer list"
  let rows := csvHeader :: (mongoSortDesc db.volunteers).map csvRow
  (.csv rows, db2)

/-! ### Deletion (DELETE /api/volunteers/<id>, DELETE /api/news/<id>) -/

/-- The DELETE /api/volunteers/<id> handler.  `ObjectId(id)` raising on a
malformed id is caught by the route's `except` and surfaces as a 500 with the
error's message; `delete_one` removes the first (store-wise only, by `_id`
uniqueness) matching document. -/
def delete_volunteer (cfg : Config) (id : String) (auditOk : Bool) (now : Nat)
    (db : DbState) : RouteResponse × DbState :=
  match parseObjectId id with
  | none => (.json 500 false (invalidIdMessage id), db)
  | some oid =>
    if db.volunteers.any (fun v => v.oid = oid) then
      let db2 := { db with volunteers := db.volunteers.eraseP (fun v => v.oid = oid) }
      let db3 := log_audit cfg auditOk now db2 "DELETE_VOLUNTEER" ("Deleted volunteer ID: " ++ id)
      (.json 200 true "Volunteer deleted", db3)
    else
      (.json 404 false "Volunteer not found", db)

/-- The DELETE /api/news/<id> handler, same structure over the news collection. -/
def delete_news (cfg : Config) (id : String) (auditOk : Bool) (now : Nat)
    (db : DbState) : RouteResponse × DbState :=
  match parseObjectId id with
  | none => (.json 500 false (invalidIdMessage id), db)
  | some oid =>
    if db.news.any (fun n => n.oid = oid) then
      let db2 := { db with news := db.news.eraseP (fun n => n.oid = oid) }
      let db3 := log_audit cfg auditOk now db2 "DELETE_NEWS" ("Deleted news ID: " ++ id)
      (.json 200 true "News deleted", db3)
    else
      (.json 404 false "News item not found", db)

/-! ### News creation (POST /api/news) -/

/-- The parsed JSON body of an add-news request. -/
structure NewsData where
  title : Option String
  content : Option String
  image : Option String
deriving DecidableEq, Repr

/-- The POST /api/news handler: requires truthy title and content, stores the
image key only when a truthy image string is present. -/
def add_news (cfg : Config) (data : Option NewsData) (newId : String) (now : Nat)
    (auditOk : Bool) (db : DbState) : RouteResponse × DbState :=
  match data with
  | none => (.json 400 false "Missing title or content", db)
  | some d =>
    if !truthy d.title || !truthy d.content then
      (.json 400 false "Missing title or content", db)
    else
      let t := d.title.getD ""
      let item : NewsItem :=
        { oid := newId, title := t, content := d.content.getD "",
          image := if truthy d.image then d.image else none, date := now }
      let db2 := { db with news := db.news ++ [item] }
      let db3 := log_audit cfg auditOk now db2 "ADD_NEWS" ("Added news: " ++ t)
      (.json 201 true "News added successfully", db3)

/-! ### Spec-side predicates (from the spec's words, for refutation only) -/

/-- Spec-side: the simple `local@domain.tld` email shape claimed by the spec's
validation step (b): one `@`, nonempty local part, and a domain containing a
dot with nonempty parts around it. -/
def specEmailShape (s : String) : Bool :=
  match s.data.splitOn '@' with
  | [localPart, domain] =>
    !localPart.isEmpty &&
      (match domain.splitOn '.' with
       | parts => parts.length ≥ 2 && parts.all (fun p => !p.isEmpty))
  | _ => false

/-- Spec-side: the phone shape claimed by the spec's validation step (c):
all digits and length exactly 10 or 12. -/
def specPhoneShape (s : String) : Bool :=
  s.data.all Char.isDigit && (s.data.length = 10 || s.data.length = 12)

/-- Uniqueness invariant: no two volunteer records share an email or a phone. -/
def volunteersUnique (db : DbState) : Prop :=
  db.volunteers.Pairwise (fun a b => a.email ≠ b.email ∧ a.phone ≠ b.phone)

/-! ### Sample states used to instantiate the theorems on concrete inputs -/

/-- A sample registered volunteer. -/
def sampleVol : Volunteer :=
  { oid := "aabbccddeeff001122334455", name := "Alice", email := "a@x.com",
    phone := "9876543210", message := "", registered_at := 5 }

/-- A store holding exactly `sampleVol`. -/
def sampleDb : DbState := { volunteers := [sampleVol], news := [], audit_logs := [] }

/-- The empty store. -/
def emptyDb : DbState := { volunteers := [], news := [], audit_logs := [] }

/-- A sample server configuration. -/
def sampleCfg : Config :=
  { secretKey := "s3cret", adminUsername := "admin", adminPassword := "pw" }

/-- A volunteer none of whose fields contains the character `.`. -/
def dotlessVol : Volunteer :=
  { oid := "ffeeddccbbaa998877665544", name := "Al", email := "al at example com",
    phone := "9876543210", message := "", registered_at := 3 }

/-- A store holding exactly `dotlessVol`. -/
def dotlessDb : DbState := { volunteers := [dotlessVol], news := [], audit_logs := [] }

/-! ### Theorems -/

/-- C1 (counterexample): a registration whose email fails the spec's
`local@domain.tld` shape and whose phone is not 10/12 digits is nevertheless
accepted with HTTP 201 and a record is created — the handler performs no shape
validation, only key presence. -/
theorem register_shape_validation_refuted :
    specEmailShape "not-an-email" = false
    ∧ specPhoneShape "12345" = false
    ∧ (register_volunteer (some ⟨some "A", some "not-an-email", some "12345", none⟩)
        0 "aabbccddeeff001122334455" emptyDb).1.status = 201
    ∧ (register_volunteer (some ⟨some "A", some "not-an-email", some "12345", none⟩)
        0 "aabbccddeeff001122334455" emptyDb).2.volunteers.length = 1 := by
  refine ⟨by decide, by decide, rfl, rfl⟩

/-- C1 (amended): `register_volunteer` validates only the presence of the three
required keys.  A request with no JSON body or missing name/email/phone is
rejected with HTTP 400 before any store access and creates no record; a request
carrying all three proceeds to insertion regardless of the field contents
(answering 201, or 409 on a uniqueness conflict). -/
theorem register_validates_presence_only (data : Option RegisterData) (now : Nat)
    (newId : String) (db : DbState) :
    (hasRequiredFields data = false →
      register_volunteer data now newId db = (.json 400 false "Missing fields", db))
    ∧ (hasRequiredFields data = true →
      (register_volunteer data now newId db).1.status = 201
      ∨ (register_volunteer data now newId db).1.status = 409) := by
  obtain _ | ⟨n1, e1, p1, m1⟩ := data
  · exact ⟨fun _ => rfl, fun h => by simp [hasRequiredFields] at h⟩
  obtain _ | n := n1
  · exact ⟨fun _ => rfl, fun h => by simp [hasRequiredFields] at h⟩
  obtain _ | e := e1
  · exact ⟨fun _ => rfl, fun h => by simp [hasRequiredFields] at h⟩
  obtain _ | p := p1
  · exact ⟨fun _ => rfl, fun h => by simp [hasRequiredFields] at h⟩
  refine ⟨fun h => by simp [hasRequiredFields] at h, fun _ => ?_⟩
  rcases hins : volunteersInsertOne db
      { oid := newId, name := n, email := e, phone := p,
        message := m1.getD "", registered_at := now } with _ | db2
  · right; simp [register_volunteer, hins, RouteResponse.status]
  · left; simp [register_volunteer, hins, RouteResponse.status]

/-- C1 (amended, instance): a request missing its email key is rejected with
400 and the empty store stays empty. -/
theorem register_validates_presence_only_witness :
    register_volunteer (some ⟨some "A", none, some "12345", none⟩) 0
        "aabbccddeeff001122334455" emptyDb
      = (.json 400 false "Missing fields", emptyDb) :=
  (register_validates_presence_only (some ⟨some "A", none, some "12345", none⟩) 0
    "aabbccddeeff001122334455" emptyDb).1 (by decide)

/-- C2: under the unique indexes on email and phone, registering with an email
or phone already held by some record answers the distinct 409 conflict body and
leaves the store unchanged; and registration preserves the invariant that no
two volunteer records share an email or a phone. -/
theorem register_duplicate_conflict (now : Nat) (newId : String) (db : DbState) :
    (∀ (d : RegisterData) (n e p : String),
      d.name = some n → d.email = some e → d.phone = some p →
      (∃ v ∈ db.volunteers, v.email = e ∨ v.phone = p) →
      register_volunteer (some d) now newId db
        = (.json 409 false "Email/Phone already exists", db))
    ∧ (∀ data : Option RegisterData, volunteersUnique db →
        volunteersUnique (register_volunteer data now newId db).2) := by
  constructor
  · rintro ⟨dn, de, dp, dm⟩ n e p hn he hp ⟨v, hv, hvd⟩
    subst hn; subst he; subst hp
    have hany : db.volunteers.any
        (fun w => w.email = e || w.phone = p) = true := by
      rw [List.any_eq_true]
      refine ⟨v, hv, ?_⟩
      rcases hvd with h | h <;> simp [h]
    simp [register_volunteer, volunteersInsertOne, hany]
  · intro data hu
    obtain _ | ⟨n1, e1, p1, m1⟩ := data
    · exact hu
    obtain _ | n := n1
    · exact hu
    obtain _ | e := e1
    · exact hu
    obtain _ | p := p1
    · exact hu
    rcases hins : volunteersInsertOne db
        { oid := newId, name := n, email := e, phone := p,
          message := m1.getD "", registered_at := now } with _ | db2
    · simpa [register_volunteer, hins] using hu
    · have hany : db.volunteers.any (fun w => w.email = e || w.phone = p) = false := by
        by_contra hc
        rw [Bool.not_eq_false] at hc
        simp [volunteersInsertOne, hc] at hins
      have hdb2 : db2 = { db with volunteers := db.volunteers ++
          [{ oid := newId, name := n, email := e, phone := p,
             message := m1.getD "", registered_at := now }] } := by
        simp only [volunteersInsertOne, hany, Bool.false_eq_true, if_false,
          Option.some.injEq] at hins
        exact hins.symm
      simp only [register_volunteer, hins]
      rw [hdb2]
      unfold volunteersUnique
      rw [List.pairwise_append]
      refine ⟨hu, List.pairwise_singleton _ _, ?_⟩
      intro a ha b hb
      rw [List.mem_singleton] at hb
      subst hb
      have hne := List.any_eq_false.mp hany a ha
      simp only [Bool.or_eq_true, decide_eq_true_eq, not_or] at hne
      exact ⟨hne.1, hne.2⟩

/-- C2 (instance): re-registering `sampleVol`'s email with a fresh phone yields
the 409 conflict, the store is unchanged, and uniqueness still holds. -/
theorem register_duplicate_conflict_witness :
    register_volunteer (some ⟨some "Bob", some "a@x.com", some "1112223334", none⟩)
        9 "aabbccddeeff001122334466" sampleDb
      = (.json 409 false "Email/Phone already exists", sampleDb)
    ∧ volunteersUnique (register_volunteer
        (some ⟨some "Bob", some "a@x.com", some "1112223334", none⟩)
        9 "aabbccddeeff001122334466" sampleDb).2 := by
  have h := register_duplicate_conflict 9 "aabbccddeeff001122334466" sampleDb
  refine ⟨h.1 _ "Bob" "a@x.com" "1112223334" rfl rfl rfl
      ⟨sampleVol, by simp [sampleDb], Or.inl rfl⟩, h.2 _ ?_⟩
  simp [volunteersUnique, sampleDb]

/-- C3: whenever verification rejects — no bearer credential, expired token, or
invalid signature/format — `token_required` answers 401, the store state is
returned untouched, and the wrapped handler is never consulted (the outcome is
the same for any two handlers); verification itself is a pure function of the
header, secret and clock. -/
theorem token_required_short_circuits (cfg : Config) (hdr : AuthHeader) (now : Nat)
    (f g : DbState → RouteResponse × DbState) (db : DbState)
    (h : verifyRejects cfg.secretKey hdr now = true) :
    (token_required cfg hdr now f db).1.status = 401
    ∧ (token_required cfg hdr now f db).2 = db
    ∧ token_required cfg hdr now f db = token_required cfg hdr now g db := by
  cases hx : extractToken hdr with
  | none => simp [token_required, hx, RouteResponse.status]
  | some c =>
    cases hd : jwt_decode cfg.secretKey c now with
    | ok u =>
      rw [verifyRejects, hx] at h
      simp only [hd] at h
      exact absurd h (by simp)
    | expiredSignature => simp [token_required, hx, hd, RouteResponse.status]
    | invalidToken => simp [token_required, hx, hd, RouteResponse.status]

/-- C3 (instance): a request with no Authorization header is answered 401 with
the store untouched, identically for two different handlers. -/
theorem token_required_short_circuits_witness :
    (token_required sampleCfg .absent 0
        (fun db => (.json 200 true "a", db)) sampleDb).1.status = 401
    ∧ (token_required sampleCfg .absent 0
        (fun db => (.json 200 true "a", db)) sampleDb).2 = sampleDb
    ∧ token_required sampleCfg .absent 0 (fun db => (.json 200 true "a", db)) sampleDb
        = token_required sampleCfg .absent 0 (fun db => (.json 200 true "b", db)) sampleDb :=
  token_required_short_circuits sampleCfg .absent 0
    (fun db => (.json 200 true "a", db)) (fun db => (.json 200 true "b", db))
    sampleDb (by decide)

/-- C4: with both credentials supplied, a match against the configured admin
identity yields the token carrying the admin user claim, expiry now + 2 hours,
signed with the server secret; any mismatch yields the 401 body
`Invalid credentials`, identical whichever of username or password (or both)
was wrong, so the response does not distinguish unknown user from wrong
password. -/
theorem admin_login_contract (cfg : Config) (now : Nat) (auditOk : Bool)
    (db : DbState) (hu : cfg.adminUsername ≠ "") (hp : cfg.adminPassword ≠ "") :
    (∀ d : LoginData,
      d.username = some cfg.adminUsername → d.password = some cfg.adminPassword →
      admin_login cfg (some d) now auditOk db
        = (.loginOk { user := cfg.adminUsername, exp := now + 2 * 3600,
                      signedWith := cfg.secretKey },
           log_audit cfg auditOk now db "LOGIN" "Admin logged in successfully"))
    ∧ (∀ d1 d2 : LoginData,
      truthy d1.username = true → truthy d1.password = true →
      truthy d2.username = true → truthy d2.password = true →
      ¬(d1.username = some cfg.adminUsername ∧ d1.password = some cfg.adminPassword) →
      ¬(d2.username = some cfg.adminUsername ∧ d2.password = some cfg.adminPassword) →
      admin_login cfg (some d1) now auditOk db = admin_login cfg (some d2) now auditOk db
      ∧ (admin_login cfg (some d1) now auditOk db).1
          = .json 401 false "Invalid credentials") := by
  have mismatch : ∀ d : LoginData, truthy d.username = true → truthy d.password = true →
      ¬(d.username = some cfg.adminUsername ∧ d.password = some cfg.adminPassword) →
      admin_login cfg (some d) now auditOk db
        = (.json 401 false "Invalid credentials", db) := by
    intro d tu tp m
    simp only [admin_login, tu, tp, Bool.not_true, Bool.or_self, Bool.false_eq_true,
      if_false]
    split
    · rename_i hcond
      rw [Bool.and_eq_true, decide_eq_true_eq, decide_eq_true_eq] at hcond
      exact absurd hcond m
    · rfl
  constructor
  · intro d h1 h2
    have tu : truthy (some cfg.adminUsername) = true := by simp [truthy, hu]
    have tp2 : truthy (some cfg.adminPassword) = true := by simp [truthy, hp]
    simp [admin_login, h1, h2, tu, tp2, jwt_encode]
  · intro d1 d2 t1u t1p t2u t2p m1 m2
    rw [mismatch d1 t1u t1p m1, mismatch d2 t2u t2p m2]
    exact ⟨rfl, rfl⟩

/-- C4 (instance): correct credentials yield the signed two-hour token; an
unknown-user attempt and a wrong-password attempt receive the same 401 body. -/
theorem admin_login_contract_witness :
    admin_login sampleCfg (some ⟨some "admin", some "pw"⟩) 100 true sampleDb
      = (.loginOk { user := "admin", exp := 100 + 2 * 3600, signedWith := "s3cret" },
         log_audit sampleCfg true 100 sampleDb "LOGIN" "Admin logged in successfully")
    ∧ admin_login sampleCfg (some ⟨some "root", some "pw"⟩) 100 true sampleDb
        = admin_login sampleCfg (some ⟨some "admin", some "wrong"⟩) 100 true sampleDb
    ∧ (admin_login sampleCfg (some ⟨some "root", some "pw"⟩) 100 true sampleDb).1
        = .json 401 false "Invalid credentials" := by
  have h := admin_login_contract sampleCfg 100 true sampleDb
    (by decide) (by decide)
  have h2 := h.2 ⟨some "root", some "pw"⟩ ⟨some "admin", some "wrong"⟩
    (by decide) (by decide) (by decide) (by decide)
    (by intro hc; exact absurd hc.1 (by decide))
    (by intro hc; exact absurd hc.2 (by decide))
  exact ⟨h.1 ⟨some "admin", some "pw"⟩ rfl rfl, h2.1, h2.2⟩

/-- A second sample volunteer, registered later than `sampleVol`. -/
def sampleVol2 : Volunteer :=
  { oid := "aabbccddeeff001122334466", name := "Bob", email := "b@y.org",
    phone := "111122223333", message := "hi", registered_at := 9 }

/-- A store holding `sampleVol` and `sampleVol2`. -/
def sampleDb2 : DbState :=
  { volunteers := [sampleVol, sampleVol2], news := [], audit_logs := [] }

/-- The cursor sort for `registered_at` descending yields a list that is
pairwise nonincreasing in `registered_at`. -/
theorem mongoSortDesc_pairwise (l : List Volunteer) :
    (mongoSortDesc l).Pairwise (fun a b => b.registered_at ≤ a.registered_at) := by
  have h : (l.mergeSort (fun a b => decide (b.registered_at ≤ a.registered_at))).Pairwise
      (fun a b => decide (b.registered_at ≤ a.registered_at) = true) := by
    apply List.sorted_mergeSort
    · intro a b c hab hbc
      rw [decide_eq_true_eq] at *
      exact Nat.le_trans hbc hab
    · intro a b
      rcases Nat.le_total b.registered_at a.registered_at with h | h <;> simp [h]
  exact h.imp (fun hab => of_decide_eq_true hab)

/-- Sorting the cursor permutes the collection. -/
theorem mongoSortDesc_perm (l : List Volunteer) : (mongoSortDesc l).Perm l :=
  List.mergeSort_perm l _

/-- A document produced by the find/sort/skip/limit cursor chain belongs to the
underlying collection and satisfies the query filter. -/
theorem mem_cursor {lim skip : Nat} {q : Volunteer → Bool} {l : List Volunteer}
    {w : Volunteer}
    (hw : w ∈ mongoLimit lim (mongoSkip skip (mongoSortDesc (l.filter q)))) :
    w ∈ l ∧ q w = true := by
  have h1 : w ∈ mongoSkip skip (mongoSortDesc (l.filter q)) := by
    unfold mongoLimit at hw
    split at hw
    · exact hw
    · exact List.mem_of_mem_take hw
  have h2 : w ∈ mongoSortDesc (l.filter q) := List.mem_of_mem_drop h1
  have h3 : w ∈ l.filter q := List.mem_mergeSort.mp h2
  exact ⟨(List.mem_filter.mp h3).1, (List.mem_filter.mp h3).2⟩

/-- On a pattern free of regex metacharacters, the anchored regex match is
exactly the case-insensitive plain-text prefix test. -/
theorem regexMatchHead_literal : ∀ (pat hay : List Char),
    pat.all (fun c => !(regexMeta.contains c)) = true →
    regexMatchHead pat hay = charsStartWith hay pat
  | [], hay, _ => by cases hay <;> rfl
  | _ :: _, [], _ => rfl
  | p :: ps, c :: hs, h => by
    rw [List.all_cons, Bool.and_eq_true] at h
    have hpd : ¬(p = '.') := by
      intro hpe
      rw [hpe] at h
      exact absurd h.1 (by decide)
    unfold regexMatchHead charsStartWith
    rw [regexMatchHead_literal ps hs h.2, decide_eq_false hpd, Bool.false_or]
    congr 1
    unfold charEqCI
    rw [decide_eq_decide]
    exact eq_comm

/-- On a pattern free of regex metacharacters, the unanchored regex search is
exactly the case-insensitive substring test. -/
theorem regexSearch_literal : ∀ (hay pat : List Char),
    pat.all (fun c => !(regexMeta.contains c)) = true →
    regexSearch pat hay = charsContain hay pat
  | [], pat, h => by
    unfold regexSearch charsContain
    rw [regexMatchHead_literal pat [] h, Bool.or_false]
  | c :: hs, pat, h => by
    unfold regexSearch charsContain
    rw [regexMatchHead_literal pat (c :: hs) h, regexSearch_literal hs pat h]

/-- For metacharacter-free search text the store's case-insensitive regex
coincides with substring containment. -/
theorem mongoRegexCI_literal (hay pat : String) (h : regexLiteral pat = true) :
    mongoRegexCI hay pat = ciContains hay pat :=
  regexSearch_literal hay.data pat.data h

/-- C5 (counterexample): with search text `.` the route returns a record no
field of which contains `.` as a substring — the search text is passed to the
store as a regex pattern, where `.` matches any character, so the claim's
case-insensitive-substring reading of the match fails on the code. -/
theorem get_volunteers_substring_refuted :
    (get_volunteers false 1 10 "." dotlessDb).1
      = .listOk [volunteerView dotlessVol] 1 10 1
    ∧ ciContains dotlessVol.name "." = false
    ∧ ciContains dotlessVol.email "." = false
    ∧ ciContains dotlessVol.phone "." = false := by
  refine ⟨?_, by decide, by decide, by decide⟩
  have hq : volQuery "." dotlessVol = true := by decide
  simp [get_volunteers, mongoFind, dotlessDb, hq, mongoSortDesc, mongoSkip, mongoLimit]

/-- C5 (amended): for an authorized listing with page ≥ 1 whose search text is
free of regex metacharacters and whose store query succeeds, the handler
reports as total the number of records matching the filter over the whole
collection (not the page), the returned page is the filtered collection sorted
newest-first with the first (page−1)·limit entries skipped (and, for a nonzero
limit, at most limit entries), every returned record contains the search text
case-insensitively as a substring of name, email or phone, the page is ordered
by registration time descending, and the store is untouched; when the store
raises (an invalid pattern, for instance) the route answers 500 `Server Error`
with the state unchanged. -/
theorem get_volunteers_contract (page lim : Nat) (s : String) (db : DbState)
    (hp : 1 ≤ page) (hlit : regexLiteral s = true) :
    (∃ vs : List Volunteer,
      (get_volunteers false page lim s db).1
        = .listOk (vs.map volunteerView) page lim
            ((db.volunteers.filter (volQuery s)).length)
      ∧ (∀ i : Nat,
          vs[i]? = (mongoSortDesc (db.volunteers.filter (volQuery s)))[(page - 1) * lim + i]?
          ∨ (lim ≠ 0 ∧ lim ≤ i ∧ vs[i]? = none))
      ∧ vs.Pairwise (fun a b => b.registered_at ≤ a.registered_at)
      ∧ (s ≠ "" → ∀ v ∈ vs,
          (ciContains v.name s || ciContains v.email s || ciContains v.phone s) = true)
      ∧ (get_volunteers false page lim s db).2 = db)
    ∧ get_volunteers true page lim s db = (.json 500 false "Server Error", db) := by
  refine ⟨⟨mongoLimit lim (mongoSkip ((page - 1) * lim)
      (mongoSortDesc (db.volunteers.filter (volQuery s)))), rfl, ?_, ?_, ?_, rfl⟩, rfl⟩
  · intro i
    by_cases hl : lim = 0
    · left
      simp only [mongoLimit, hl, if_true, mongoSkip]
      exact List.getElem?_drop _ _ _
    · by_cases hi : i < lim
      · left
        simp only [mongoLimit, hl, if_false, mongoSkip]
        rw [List.getElem?_take_of_lt hi]
        exact List.getElem?_drop _ _ _
      · right
        refine ⟨hl, Nat.le_of_not_lt hi, ?_⟩
        simp only [mongoLimit, hl, if_false]
        exact List.getElem?_eq_none
          (Nat.le_trans (Nat.le_trans (List.length_take_le _ _) (Nat.le_of_not_lt hi))
            (Nat.le_refl i))
  · refine List.Pairwise.sublist ?_
      (mongoSortDesc_pairwise (db.volunteers.filter (volQuery s)))
    unfold mongoLimit mongoSkip
    split
    · exact List.drop_sublist _ _
    · exact (List.take_sublist _ _).trans (List.drop_sublist _ _)
  · intro hs v hv
    have hq := (mem_cursor hv).2
    unfold volQuery at hq
    rw [if_neg hs] at hq
    unfold matchesSearch at hq
    rw [mongoRegexCI_literal v.name s hlit, mongoRegexCI_literal v.email s hlit,
      mongoRegexCI_literal v.phone s hlit] at hq
    exact hq

/-- C5 (instance): page 1 with limit 10 and metacharacter-free search text `a`
over a two-record store, plus the 500 outcome when the query raises. -/
theorem get_volunteers_contract_witness :
    (∃ vs : List Volunteer,
      (get_volunteers false 1 10 "a" sampleDb2).1
        = .listOk (vs.map volunteerView) 1 10
            ((sampleDb2.volunteers.filter (volQuery "a")).length)
      ∧ (∀ i : Nat,
          vs[i]? = (mongoSortDesc (sampleDb2.volunteers.filter (volQuery "a")))[(1 - 1) * 10 + i]?
          ∨ (10 ≠ 0 ∧ 10 ≤ i ∧ vs[i]? = none))
      ∧ vs.Pairwise (fun a b => b.registered_at ≤ a.registered_at)
      ∧ ("a" ≠ "" → ∀ v ∈ vs,
          (ciContains v.name "a" || ciContains v.email "a" || ciContains v.phone "a") = true)
      ∧ (get_volunteers false 1 10 "a" sampleDb2).2 = sampleDb2)
    ∧ get_volunteers true 1 10 "a" sampleDb2
        = (.json 500 false "Server Error", sampleDb2) :=
  get_volunteers_contract 1 10 "a" sampleDb2 (by decide) (by decide)

/-- `log_audit` never changes the volunteers collection. -/
theorem log_audit_volunteers (cfg : Config) (ok : Bool) (now : Nat) (db : DbState)
    (a d : String) : (log_audit cfg ok now db a d).volunteers = db.volunteers := by
  cases ok <;> rfl

/-- `log_audit` never changes the news collection. -/
theorem log_audit_news (cfg : Config) (ok : Bool) (now : Nat) (db : DbState)
    (a d : String) : (log_audit cfg ok now db a d).news = db.news := by
  cases ok <;> rfl

/-- Under `_id` uniqueness of the stored documents, once `delete_one` erases
the matching document no remaining document carries the deleted id. -/
theorem eraseP_oid_not_mem {l : List Volunteer}
    (hnd : (l.map Volunteer.oid).Nodup) {oid : String} {w : Volunteer}
    (hw : w ∈ l.eraseP (fun v => v.oid = oid)) : w.oid ≠ oid := by
  induction l with
  | nil => simp [List.eraseP] at hw
  | cons a t ih =>
    rw [List.map_cons, List.nodup_cons] at hnd
    rw [List.eraseP_cons] at hw
    by_cases ha : a.oid = oid
    · rw [decide_eq_true ha, cond_true] at hw
      intro hcontra
      exact hnd.1 (by rw [ha, ← hcontra]; exact List.mem_map_of_mem _ hw)
    · rw [decide_eq_false ha, cond_false, List.mem_cons] at hw
      rcases hw with hw | hw
      · rw [hw]; exact ha
      · exact ih hnd.2 hw

/-- C6: for an authorized deletion by a well-formed id, under store-assigned
unique ids: when no record has the id the response is the distinct 404 body and
the whole state (collection and audit log) is unchanged; when a record has the
id the response is 200, the collection shrinks by exactly one, the id never
again appears in any listing page, and a DELETE_VOLUNTEER audit entry is
appended. -/
theorem delete_volunteer_contract (cfg : Config) (id oid : String) (now : Nat)
    (db : DbState) (hid : parseObjectId id = some oid)
    (hnd : (db.volunteers.map Volunteer.oid).Nodup) :
    (db.volunteers.any (fun v => v.oid = oid) = false →
      delete_volunteer cfg id true now db = (.json 404 false "Volunteer not found", db))
    ∧ (db.volunteers.any (fun v => v.oid = oid) = true →
      (delete_volunteer cfg id true now db).1 = .json 200 true "Volunteer deleted"
      ∧ (delete_volunteer cfg id true now db).2.volunteers.length + 1
          = db.volunteers.length
      ∧ (∀ raises page lim s, oid ∉
          (get_volunteers raises page lim s (delete_volunteer cfg id true now db).2).1.listedIds)
      ∧ (delete_volunteer cfg id true now db).2.audit_logs
          = db.audit_logs
              ++ [⟨"DELETE_VOLUNTEER", "Deleted volunteer ID: " ++ id,
                    cfg.adminUsername, now⟩]) := by
  constructor
  · intro hnone
    simp [delete_volunteer, hid, hnone]
  · intro hfound
    have hstate : (delete_volunteer cfg id true now db).2
        = log_audit cfg true now
            { db with volunteers := db.volunteers.eraseP (fun v => v.oid = oid) }
            "DELETE_VOLUNTEER" ("Deleted volunteer ID: " ++ id) := by
      simp [delete_volunteer, hid, hfound]
    have hresp : (delete_volunteer cfg id true now db).1
        = .json 200 true "Volunteer deleted" := by
      simp [delete_volunteer, hid, hfound]
    obtain ⟨v, hv, hvp⟩ := List.any_eq_true.mp hfound
    rw [decide_eq_true_eq] at hvp
    refine ⟨hresp, ?_, ?_, ?_⟩
    · rw [hstate, log_audit_volunteers]
      have hlen : (db.volunteers.eraseP fun v => decide (v.oid = oid)).length
          = db.volunteers.length - 1 :=
        List.length_eraseP_of_mem hv (decide_eq_true hvp)
      have hpos := List.length_pos_of_mem hv
      show (db.volunteers.eraseP fun v => decide (v.oid = oid)).length + 1
          = db.volunteers.length
      omega
    · intro raises page lim s hmem
      cases raises with
      | true => simp [get_volunteers, RouteResponse.listedIds] at hmem
      | false =>
        rw [hstate] at hmem
        simp only [get_volunteers, Bool.false_eq_true, if_false,
          RouteResponse.listedIds, List.map_map] at hmem
        rw [List.mem_map] at hmem
        obtain ⟨w, hw, hwid⟩ := hmem
        rw [log_audit_volunteers] at hw
        have hw2 := (mem_cursor hw).1
        exact eraseP_oid_not_mem hnd hw2 hwid
    · rw [hstate]
      simp [log_audit]

/-- C6 (instance): deleting the only record of `sampleDb` by its id (presented
in uppercase hex) answers 200, empties the collection, removes the id from
every listing, and records the audit entry. -/
theorem delete_volunteer_contract_witness :
    (delete_volunteer sampleCfg "AABBCCDDEEFF001122334455" true 7 sampleDb).1
        = .json 200 true "Volunteer deleted"
    ∧ (delete_volunteer sampleCfg "AABBCCDDEEFF001122334455" true 7 sampleDb).2.volunteers.length + 1
        = sampleDb.volunteers.length
    ∧ (∀ raises page lim s, "aabbccddeeff001122334455" ∉
        (get_volunteers raises page lim s
          (delete_volunteer sampleCfg "AABBCCDDEEFF001122334455" true 7 sampleDb).2).1.listedIds)
    ∧ (delete_volunteer sampleCfg "AABBCCDDEEFF001122334455" true 7 sampleDb).2.audit_logs
        = sampleDb.audit_logs
            ++ [⟨"DELETE_VOLUNTEER", "Deleted volunteer ID: " ++ "AABBCCDDEEFF001122334455",
                  sampleCfg.adminUsername, 7⟩] :=
  (delete_volunteer_contract sampleCfg "AABBCCDDEEFF001122334455"
    "aabbccddeeff001122334455" 7 sampleDb (by decide) (by decide)).2 (by decide)

/-- C7: for every collection (the empty one included) the authorized export
writes exactly the fixed header row followed by one row per volunteer record in
the fixed column order, rows ordered newest-first, and (the audit write
succeeding) appends an EXPORT_CSV audit entry. -/
theorem export_csv_contract (cfg : Config) (now : Nat) (db : DbState) :
    ∃ vs : List Volunteer,
      vs.Perm db.volunteers
      ∧ vs.Pairwise (fun a b => b.registered_at ≤ a.registered_at)
      ∧ (export_volunteers cfg true now db).1 = .csv (csvHeader :: vs.map csvRow)
      ∧ (csvHeader :: vs.map csvRow).length = db.volunteers.length + 1
      ∧ (export_volunteers cfg true now db).2.audit_logs
          = db.audit_logs
              ++ [⟨"EXPORT_CSV", "Exported volunteer list", cfg.adminUsername, now⟩] := by
  refine ⟨mongoSortDesc db.volunteers, mongoSortDesc_perm _,
    mongoSortDesc_pairwise _, rfl, ?_, ?_⟩
  · simp [(mongoSortDesc_perm db.volunteers).length_eq]
  · simp [export_volunteers, log_audit]

/-- C8: a failing audit write is swallowed: `log_audit` leaves the state
unchanged and raises nothing, and every audited handler — login, volunteer
deletion, export, news addition, news deletion — returns exactly the response
it returns when the audit write succeeds, with the data collections equal as
well; the failure is never surfaced to the caller. -/
theorem audit_failures_swallowed (cfg : Config) (now : Nat) (db : DbState) :
    (∀ action details, log_audit cfg false now db action details = db)
    ∧ (∀ data, (admin_login cfg data now false db).1
        = (admin_login cfg data now true db).1)
    ∧ (∀ id, (delete_volunteer cfg id false now db).1
          = (delete_volunteer cfg id true now db).1
        ∧ (delete_volunteer cfg id false now db).2.volunteers
          = (delete_volunteer cfg id true now db).2.volunteers)
    ∧ (export_volunteers cfg false now db).1 = (export_volunteers cfg true now db).1
    ∧ (∀ data newId, (add_news cfg data newId now false db).1
          = (add_news cfg data newId now true db).1
        ∧ (add_news cfg data newId now false db).2.news
          = (add_news cfg data newId now true db).2.news)
    ∧ (∀ id, (delete_news cfg id false now db).1
          = (delete_news cfg id true now db).1
        ∧ (delete_news cfg id false now db).2.news
          = (delete_news cfg id true now db).2.news) := by
  refine ⟨fun action details => rfl, ?_, ?_, rfl, ?_, ?_⟩
  · intro data
    obtain _ | d := data
    · rfl
    · simp only [admin_login]
      split
      · rfl
      · split <;> rfl
  · intro id
    rcases h : parseObjectId id with _ | oid
    · simp [delete_volunteer, h]
    · simp only [delete_volunteer, h]
      split
      · exact ⟨rfl, by rw [log_audit_volunteers, log_audit_volunteers]⟩
      · exact ⟨rfl, rfl⟩
  · intro data newId
    obtain _ | d := data
    · exact ⟨rfl, rfl⟩
    · simp only [add_news]
      split
      · exact ⟨rfl, rfl⟩
      · exact ⟨rfl, by rw [log_audit_news, log_audit_news]⟩
  · intro id
    rcases h : parseObjectId id with _ | oid
    · simp [delete_news, h]
    · simp only [delete_news, h]
      split
      · exact ⟨rfl, by rw [log_audit_news, log_audit_news]⟩
      · exact ⟨rfl, rfl⟩

/-- C9: token verification ignores the embedded identity: two tokens signed
with the server secret, carrying the same unexpired expiry and differing only
in the user claim, are both accepted, and every protected handler proceeds
identically (the handler runs on the same state, the claim being discarded). -/
theorem verify_ignores_identity (cfg : Config) (u1 u2 : String) (exp now : Nat)
    (f : DbState → RouteResponse × DbState) (db : DbState) (h : now < exp) :
    token_required cfg (.bearer (.jwtToken ⟨u1, exp, cfg.secretKey⟩)) now f db = f db
    ∧ token_required cfg (.bearer (.jwtToken ⟨u2, exp, cfg.secretKey⟩)) now f db = f db := by
  have hne : ¬(exp ≤ now) := Nat.not_le.mpr h
  constructor <;> simp [token_required, extractToken, jwt_decode, hne]

/-- C9 (instance): an `admin` token and a `mallory` token with the same valid
signature and expiry are treated identically by a protected route. -/
theorem verify_ignores_identity_witness :
    token_required sampleCfg (.bearer (.jwtToken ⟨"admin", 100, "s3cret"⟩)) 0
        (fun db => (.json 200 true "ok", db)) sampleDb
      = ((.json 200 true "ok" : RouteResponse), sampleDb)
    ∧ token_required sampleCfg (.bearer (.jwtToken ⟨"mallory", 100, "s3cret"⟩)) 0
        (fun db => (.json 200 true "ok", db)) sampleDb
      = ((.json 200 true "ok" : RouteResponse), sampleDb) :=
  verify_ignores_identity sampleCfg "admin" "mallory" 100 0
    (fun db => (.json 200 true "ok", db)) sampleDb (by decide)

/-- C10: an authorized deletion whose path id is not a 24-character hex string
makes `ObjectId` raise; the handler answers 500 carrying the error's message —
not the 404 branch — and both the volunteers and the news collection are left
untouched (the whole state is unchanged, so no audit entry either). -/
theorem malformed_id_yields_500 (cfg : Config) (id : String) (auditOk : Bool)
    (now : Nat) (db : DbState) (h : objectIdValid id = false) :
    delete_volunteer cfg id auditOk now db
      = (.json 500 false (invalidIdMessage id), db)
    ∧ delete_news cfg id auditOk now db
      = (.json 500 false (invalidIdMessage id), db) := by
  have hpn : parseObjectId id = none := by simp [parseObjectId, h]
  exact ⟨by simp [delete_volunteer, hpn], by simp [delete_news, hpn]⟩

/-- C10 (instance): deleting with path id `abc` answers 500 and changes
nothing. -/
theorem malformed_id_yields_500_witness :
    delete_volunteer sampleCfg "abc" true 0 sampleDb
      = (.json 500 false (invalidIdMessage "abc"), sampleDb)
    ∧ delete_news sampleCfg "abc" true 0 sampleDb
      = (.json 500 false (invalidIdMessage "abc"), sampleDb) :=
  malformed_id_yields_500 sampleCfg "abc" true 0 sampleDb (by decide)

end KomalMemorial
